import Mathlib

/-!
Verification development for the `geoutils.georaster` module (GlacioHack/GeoUtils).

The `Raster` class wraps a rasterio dataset handle together with cached pixel
data and metadata.  Below we give a shallow embedding of the locally-authored
logic of `georaster.py` — argument validation, index/bounds checks, the
coordinate-array construction, the `_update` mutation protocol and the
operations that funnel through it, windowed value extraction, and the
constructor dispatch — and prove or refute the specified properties about it.

Machine reals of the source (numpy floats) are modelled as rationals `ℚ`;
Python integers as `ℤ`/`ℕ`; Python exceptions as `Except PyErr`.  Calls into
external libraries (rasterio's warp/mask/read, numpy casting) are modelled by
explicit parameters or by small arithmetic definitions that mirror the
documented affine formulas, each marked in its doc string.
-/

namespace GeoUtils

/-- Python exception kinds raised by the paths modelled here. -/
inductive PyErr
  | valueError
  | typeError
  | attributeError
  | indexError
deriving DecidableEq, Repr

/-- A 6-parameter affine transform `(a, b, c, d, e, f)` mapping pixel
`(col, row)` to projected `(x, y)`: `x = a*col + b*row + c`,
`y = d*col + e*row + f` (the `affine.Affine` parameter order used by the
source, e.g. `(30.0, 0.0, 478000.0, 0.0, -30.0, 3108140.0)`). -/
structure Affine6 where
  a : ℚ
  b : ℚ
  c : ℚ
  d : ℚ
  e : ℚ
  f : ℚ
deriving DecidableEq, Repr

namespace Raster

/-! ### `outside_image` (georaster.py lines 1096-1118), index=True path

```
if np.any(np.array((xi,yj)) < 0): return True
elif xi > self.ds.width or yj > self.ds.height: return True
else: return False
```
`width`/`height` are the dataset dimensions. -/

/-- `Raster.outside_image(xi, yj, index=True)`: the bounds check performed on
raster indices.  `width`, `height` stand for `self.ds.width`, `self.ds.height`. -/
def outside_image (width height : ℕ) (xi yj : ℤ) : Bool :=
  if xi < 0 ∨ yj < 0 then true
  else if xi > (width : ℤ) ∨ yj > (height : ℤ) then true
  else false

/-! ### `reproject` argument validation (georaster.py lines 451-488)

Presence-level model: each `Bool` records whether the corresponding keyword
argument was passed (not `None`).  When `dst_ref` is given, the source reads
`dst_size` from the reference and sets `dst_res = None` before the
mutual-exclusion check. -/

/-- The argument-validation prefix of `Raster.reproject`: checks on
`dst_ref`/`dst_crs`, the overwrite of `dst_size`/`dst_res` from a reference
raster, and the `dst_size`/`dst_res` mutual-exclusion check.  Returns
`Except.ok ()` when control proceeds past validation. -/
def reproject_check (dst_ref dst_crs dst_size dst_res : Bool) : Except PyErr Unit := do
  if dst_ref then
    if dst_crs then throw PyErr.valueError else pure ()
  else
    if !dst_crs then throw PyErr.valueError else pure ()
  let size := if dst_ref then true else dst_size
  let res := if dst_ref then false else dst_res
  if size && res then throw PyErr.valueError else pure ()

/-- `true` iff validation proceeded (no exception). -/
def checkOk (r : Except PyErr Unit) : Bool :=
  match r with
  | Except.ok _ => true
  | Except.error _ => false

/-! ### `reproject` size/bounds computation for explicit resolution
(georaster.py lines 511-536)

```
dst_width = np.ceil((dst_bounds.right - dst_bounds.left) / xres)
dst_height = np.ceil(np.abs(dst_bounds.bottom - dst_bounds.top) / yres)
dst_size = (int(dst_width), int(dst_height))
x1 = dst_bounds.left + (xres*dst_width)
y1 = dst_bounds.top - (yres*dst_height)
dst_bounds = BoundingBox(top=top, left=left, bottom=y1, right=x1)
``` -/

/-- Output size and adjusted bounds computed by `Raster.reproject` when
`dst_res` is given together with explicit `dst_bounds`.  Returns
`((dst_width, dst_height), (left, bottom, right, top))` of the adjusted
bounding box. -/
def reproject_res_bounds (left bottom right top xres yres : ℚ) :
    (ℤ × ℤ) × (ℚ × ℚ × ℚ × ℚ) :=
  let dst_width : ℤ := ⌈(right - left) / xres⌉
  let dst_height : ℤ := ⌈|bottom - top| / yres⌉
  let x1 : ℚ := left + xres * dst_width
  let y1 : ℚ := top - yres * dst_height
  ((dst_width, dst_height), (left, y1, x1, top))

end Raster

/-! ### The Raster data model

`Img` models a numpy array of shape `(bands, rows, cols)` as loaded by
`self.ds.read(masked=...)`: per-band row-major values, an optional mask
(present iff the array is a `np.ma.MaskedArray`), and the numpy dtype tag.
`Meta` models the `self.ds.meta` dictionary of a rasterio dataset (keys
`driver`, `dtype`, `nodata`, `width`, `height`, `count`, `crs`,
`transform`).  `RState` models a `Raster` instance: its `ds.meta`, the
cached `_data` array, and the `isLoaded` / `matches_disk` / `filename`
attributes. -/

/-- A nodata entry as stored into `meta['nodata']` by `set_ndv`: either a
single scalar or a per-band sequence. -/
inductive NdvVal
  | scalar (v : ℚ)
  | list (vs : List ℚ)
deriving DecidableEq, Repr

/-- numpy array of shape `(bands, rows, cols)`, optionally masked. -/
structure Img where
  dtype : String
  bands : List (List (List ℚ))
  mask : Option (List (List (List Bool)))
deriving DecidableEq, Repr

namespace Img

/-- `shape[0]` of the array. -/
def count (img : Img) : ℕ := img.bands.length

/-- `shape[1]` of the array. -/
def height (img : Img) : ℕ := (img.bands.head?.map List.length).getD 0

/-- `shape[2]` of the array. -/
def width (img : Img) : ℕ := ((img.bands.head?.bind List.head?).map List.length).getD 0

/-- `np.ndarray.astype(d)`: numpy casting itself is external; we record the
requested dtype on the array and keep the values. -/
def astype (img : Img) (d : String) : Img := { img with dtype := d }

/-- `arr[arr == pre] = v`: replace every value equal to `pre` by `v`
(the non-masked single-band branch of `set_ndv`). -/
def replaceEq (img : Img) (pre v : ℚ) : Img :=
  { img with bands := img.bands.map (List.map (List.map (fun x => if x = pre then v else x))) }

/-- `arr.data[arr.mask] = v`: write `v` at every masked position (the masked
single-band branch of `set_ndv`). -/
def setAllMasked (img : Img) (mk : List (List (List Bool))) (v : ℚ) : Img :=
  { img with bands :=
      (List.zipWith
        (fun band bmask => List.zipWith
          (fun rowv rowm => List.zipWith (fun x m => if m then v else x) rowv rowm)
          band bmask)
        img.bands mk) }

/-- One band of `arr.data[i, arr.mask[i, :]] = v`. -/
def bandMaskedSet (band : List (List ℚ)) (bmask : List (List Bool)) (v : ℚ) :
    List (List ℚ) :=
  List.zipWith (fun rowv rowm => List.zipWith (fun x m => if m then v else x) rowv rowm)
    band bmask

/-- `for i in range(count): arr.data[i, arr.mask[i, :]] = ndv[i]` — the masked
multi-band branch of `set_ndv`; indexing past the end of the array, the mask
or the nodata sequence raises `IndexError` as in numpy/Python. -/
def setMaskedPerBand (img : Img) (mk : List (List (List Bool))) (vs : List ℚ)
    (count : ℕ) : Except PyErr Img := do
  let bands' ← (List.range count).foldlM
    (fun (bs : List (List (List ℚ))) i => do
      match bs.get? i, mk.get? i, vs.get? i with
      | some band, some bmask, some v => pure (bs.set i (bandMaskedSet band bmask v))
      | _, _, _ => throw PyErr.indexError)
    img.bands
  pure { img with bands := bands' }

end Img

/-- The `self.ds.meta` dictionary of the wrapped rasterio dataset. -/
structure Meta where
  driver : String
  dtype : String
  nodata : Option NdvVal
  width : ℕ
  height : ℕ
  count : ℕ
  crs : ℕ
  transform : Affine6
deriving DecidableEq, Repr

/-- A `Raster` instance: dataset metadata, the cached `_data` array
(`none` iff never loaded), and the bookkeeping attributes. -/
structure RState where
  meta : Meta
  data : Option Img
  isLoaded : Bool
  matchesDisk : Option Bool
  filename : Option String
deriving DecidableEq, Repr

namespace Raster

/-- `self.nodata`, the attribute copied from the rasterio handle by
`_read_attrs`.  rasterio exposes a single scalar (the first band's value) or
`None`, whatever was stored in the metadata (external rasterio behaviour). -/
def nodataAttr (st : RState) : Option ℚ :=
  match st.meta.nodata with
  | none => none
  | some (NdvVal.scalar v) => some v
  | some (NdvVal.list vs) => vs.head?

/-- `self.bounds` as computed by rasterio `array_bounds` for an axis-aligned
dataset: the corners `(0, 0)` and `(width, height)` mapped through the affine
transform (external rasterio, plain affine arithmetic).  Returns
`(left, bottom, right, top)` = `(xmin, ymin, xmax, ymax)`. -/
def bounds (st : RState) : ℚ × ℚ × ℚ × ℚ :=
  let t := st.meta.transform
  (t.c,
   t.f + t.d * st.meta.width + t.e * st.meta.height,
   t.c + t.a * st.meta.width + t.b * st.meta.height,
   t.f)

/-- `Raster._update` (georaster.py lines 234-262): build a new in-memory
dataset from the merged image/metadata (defaulting to the current ones),
coerce a VRT driver, replace the handle, refresh attributes, set
`matches_disk = False`, and re-`load()` if data was loaded (the re-read
returns exactly the written array). -/
def update (st : RState) (imgdata : Option Img) (metadata : Option Meta) : RState :=
  let imgdata := match imgdata with
    | none => st.data
    | some img => some img
  let meta := metadata.getD st.meta
  let meta := if meta.driver = "VRT" then { meta with driver := "GTiff" } else meta
  { st with
    meta := meta,
    matchesDisk := some false,
    data := if st.isLoaded then imgdata else st.data }

/-- `Raster.from_array` (georaster.py lines 109-169): write the array into a
fresh in-memory GTiff dataset and wrap it; `filename` is not recorded and
`matches_disk` keeps its class default `None`; the data ends up loaded. -/
def from_array (data : Img) (transform : Affine6) (crs : ℕ) (nodata : Option ℚ) :
    RState :=
  { meta := { driver := "GTiff", dtype := data.dtype,
              nodata := nodata.map NdvVal.scalar,
              width := data.width, height := data.height, count := data.count,
              crs := crs, transform := transform }
    data := some data
    isLoaded := true
    matchesDisk := none
    filename := none }

/-- Crop mode accepted by `Raster.crop`. -/
inductive CropMode
  | match_pixel
  | match_extent
deriving DecidableEq, Repr

/-- Python truncation `int(q)` (toward zero). -/
def pyInt (q : ℚ) : ℤ := if 0 ≤ q then ⌊q⌋ else ⌈q⌉

/-- `rio.transform.from_bounds(w, s, e, n, width, height)` (external
rasterio, documented affine formula). -/
def rio_from_bounds (xmin ymin xmax ymax : ℚ) (width height : ℤ) : Affine6 :=
  ⟨(xmax - xmin) / width, 0, xmin, 0, -((ymax - ymin) / height), ymax⟩

/-- `Raster.crop` (georaster.py lines 353-409) for a rectangle
`(xmin, ymin, xmax, ymax)`.  The pixel extraction is performed by external
rasterio calls — `rio.mask.mask` in `match_pixel` mode, `rio.warp.reproject`
in `match_extent` mode — whose resulting array is passed in as `extImg` and,
for `match_pixel`, whose returned transform is `extTfm`.  Both modes update
the metadata and funnel through `_update`. -/
def crop (st : RState) (bds : ℚ × ℚ × ℚ × ℚ) (mode : CropMode)
    (extImg : Img) (extTfm : Affine6) : RState :=
  match mode with
  | CropMode.match_pixel =>
      let meta := { st.meta with height := extImg.height, width := extImg.width,
                                 transform := extTfm }
      update st (some extImg) (some meta)
  | CropMode.match_extent =>
      let (xmin, ymin, xmax, ymax) := bds
      let t := st.meta.transform
      let new_height := pyInt ((ymin - ymax) / t.e)
      let new_width := pyInt ((xmax - xmin) / t.a)
      let new_tfm := rio_from_bounds xmin ymin xmax ymax new_width new_height
      let meta := { st.meta with height := new_height.toNat, width := new_width.toNat,
                                 transform := new_tfm }
      update st (some extImg) (some meta)

/-- `Raster.shift` (georaster.py lines 566-581): translate the transform's
origin and funnel through `_update` with a metadata-only change. -/
def shift (st : RState) (xoff yoff : ℚ) : RState :=
  let t := st.meta.transform
  let meta := { st.meta with
    transform := ⟨t.a, t.b, t.c + xoff, t.d, t.e, t.f + yoff⟩ }
  update st none (some meta)

/-- The tail of `Raster.reproject` (georaster.py lines 552-564): the external
`rio.warp.reproject` call produces `dst_data` and `dst_transformed` from
`self.data`; the result is a **new** Raster built with `from_array` — `self`
is not modified and `_update` is never called. -/
def reproject_result (_self : RState) (dst_data : Img) (dst_transformed : Affine6)
    (dst_crs : ℕ) (nodata : Option ℚ) : RState :=
  from_array dst_data dst_transformed dst_crs nodata

/-- The nodata argument accepted by `set_ndv` (scalar number or sequence);
any other Python type is rejected by the leading isinstance check. -/
inductive NdvArg
  | scalar (v : ℚ)
  | seq (vs : List ℚ)
deriving DecidableEq, Repr

/-- `Raster.set_ndv` (georaster.py lines 583-639).  A scalar with multiple
bands is broadcast to a per-band list; a sequence with one band is collapsed
to its first element.  If `update_array` and a previous nodata value exists,
the array is rewritten: masked arrays get the new value at masked positions;
plain single-band arrays get values equal to the old nodata replaced.  In the
plain multi-band branch the source subscripts `pre_ndv[i]` where `pre_ndv`
(`self.nodata`) is a scalar, which raises `TypeError`.  Finally everything
funnels through `_update`. -/
def set_ndv_args (st : RState) (ndvArg : NdvArg) (update_array : Bool) :
    Except PyErr (Option Img × Meta) := do
  let ndv : NdvVal ←
    match ndvArg with
    | NdvArg.scalar v =>
        if 1 < st.meta.count then pure (NdvVal.list (List.replicate st.meta.count v))
        else pure (NdvVal.scalar v)
    | NdvArg.seq vs =>
        if st.meta.count = 1 then
          match vs.head? with
          | some v => pure (NdvVal.scalar v)
          | none => throw PyErr.indexError
        else pure (NdvVal.list vs)
  let meta := { st.meta with nodata := some ndv }
  let pre := nodataAttr st
  let imgdata : Option Img ←
    if update_array = true ∧ pre ≠ none then
      match st.data with
      | none => throw PyErr.typeError
      | some img =>
        if st.meta.count = 1 then
          match ndv, img.mask with
          | NdvVal.scalar nv, some mk => pure (some (img.setAllMasked mk nv))
          | NdvVal.scalar nv, none => pure (some (img.replaceEq (pre.getD 0) nv))
          | NdvVal.list _, _ => throw PyErr.valueError
        else
          match ndv, img.mask with
          | NdvVal.list vs, some mk =>
              (fun i => some i) <$> img.setMaskedPerBand mk vs st.meta.count
          | NdvVal.list _, none => throw PyErr.typeError
          | NdvVal.scalar _, _ => throw PyErr.valueError
    else pure none
  pure (imgdata, meta)

/-- `Raster.set_ndv`: process the arguments and funnel the result through
`self._update(metadata=meta, imgdata=imgdata)` (georaster.py line 639). -/
def set_ndv (st : RState) (ndvArg : NdvArg) (update_array : Bool) :
    Except PyErr RState :=
  (set_ndv_args st ndvArg update_array).map (fun p => update st p.1 (some p.2))

/-- The dtypes argument accepted by `set_dtypes`: a single type/str
(broadcast) or a sequence. -/
inductive DtypeArg
  | single (d : String)
  | seq (ds : List String)
deriving DecidableEq, Repr

/-- `Raster.set_dtypes` (georaster.py lines 641-681).  A single type/str is
broadcast to all bands; `meta['dtype']` is set to the first entry.  With
`update_array`, the single-band branch casts the array; the multi-band branch
then executes `for i in imgdata.shape[0]:`, which iterates over a Python
`int` and raises `TypeError` before `_update` is reached. -/
def set_dtypes_args (st : RState) (arg : DtypeArg) (update_array : Bool) :
    Except PyErr (Option Img × Meta) := do
  let dtypes : List String :=
    match arg with
    | DtypeArg.single d => List.replicate st.meta.count d
    | DtypeArg.seq ds => ds
  let d0 ← match dtypes.head? with
    | some d => pure d
    | none => throw PyErr.indexError
  let meta := { st.meta with dtype := d0 }
  let imgdata : Option Img ←
    if update_array then
      match st.data with
      | none => throw PyErr.attributeError
      | some img =>
        if st.meta.count = 1 then pure (some (img.astype d0))
        else do
          let _cast := img.astype d0
          throw PyErr.typeError
    else pure none
  pure (imgdata, meta)

/-- `Raster.set_dtypes`: process the arguments and funnel the result through
`self._update(imgdata=imgdata, metadata=meta)` (georaster.py line 681). -/
def set_dtypes (st : RState) (arg : DtypeArg) (update_array : Bool) :
    Except PyErr RState :=
  (set_dtypes_args st arg update_array).map (fun p => update st p.1 (some p.2))

/-- `true` iff the call returned normally. -/
def okState (r : Except PyErr RState) : Bool :=
  match r with
  | Except.ok _ => true
  | Except.error _ => false

/-! ### `coords` (georaster.py lines 1032-1058)

```
xmin, ymin, xmax, ymax = self.bounds
dx = list(self.transform)[0]
dy = list(self.transform)[4]
xx = np.linspace(xmin, xmax, self.width + 1)[::int(np.sign(dx))]
yy = np.linspace(xmin, xmax, self.height + 1)[::int(np.sign(dy))]
if offset == 'center': xx += dx / 2; yy += dy / 2
if grid: return np.meshgrid(xx[:-1], yy[:-1])
else: return xx[:-1], yy[:-1]
```
Note the second `np.linspace` call spans `xmin..xmax`, exactly as written at
line 1050. -/

/-- Pixel-coordinate offset accepted by `coords`. -/
inductive Offset
  | corner
  | center
deriving DecidableEq, Repr

/-- `np.sign`. -/
def npSign (q : ℚ) : ℤ := if 0 < q then 1 else if q < 0 then -1 else 0

/-- `np.linspace(a, b, num)`: `num` evenly spaced samples from `a` to `b`
inclusive. -/
def npLinspace (a b : ℚ) (num : ℕ) : List ℚ :=
  (List.range num).map (fun i : ℕ => a + (b - a) * (i : ℚ) / ((num : ℚ) - 1))

/-- Python slice `l[::s]` for an integer step: identity for `1`, reversal for
`-1`, `ValueError` for step `0`. -/
def sliceStep (s : ℤ) (l : List ℚ) : Except PyErr (List ℚ) :=
  if s = 1 then Except.ok l
  else if s = -1 then Except.ok l.reverse
  else Except.error PyErr.valueError

/-- `np.meshgrid(xs, ys)`: `(X, Y)` with `X[i][j] = xs[j]`, `Y[i][j] = ys[i]`. -/
def npMeshgrid (xs ys : List ℚ) : List (List ℚ) × List (List ℚ) :=
  (ys.map (fun _ => xs), ys.map (fun y => xs.map (fun _ => y)))

/-- Return value of `coords`: two 1-D axis arrays (`grid=False`) or a 2-D
meshgrid (`grid=True`). -/
inductive CoordsOut
  | axes (xs ys : List ℚ)
  | grid (X Y : List (List ℚ))
deriving DecidableEq, Repr

/-- The x coordinate at grid position `(i, j)` of a `coords` result. -/
def CoordsOut.xval : CoordsOut → ℕ → ℕ → Option ℚ
  | CoordsOut.axes xs _, _, j => xs.get? j
  | CoordsOut.grid X _, i, j => (X.get? i).bind (fun r => r.get? j)

/-- The y coordinate at grid position `(i, j)` of a `coords` result. -/
def CoordsOut.yval : CoordsOut → ℕ → ℕ → Option ℚ
  | CoordsOut.axes _ ys, i, _ => ys.get? i
  | CoordsOut.grid _ Y, i, j => (Y.get? i).bind (fun r => r.get? j)

/-- `Raster.coords(offset, grid)`: per-pixel x/y coordinates of the whole
raster, at pixel corners or centers, as axis arrays or as a meshgrid. -/
def coords (st : RState) (offset : Offset) (grid : Bool) :
    Except PyErr CoordsOut := do
  let (xmin, _ymin, xmax, _ymax) := bounds st
  let dx := st.meta.transform.a
  let dy := st.meta.transform.e
  let xx ← sliceStep (npSign dx) (npLinspace xmin xmax (st.meta.width + 1))
  let yy ← sliceStep (npSign dy) (npLinspace xmin xmax (st.meta.height + 1))
  let xx := if offset = Offset.center then xx.map (fun v => v + dx / 2) else xx
  let yy := if offset = Offset.center then yy.map (fun v => v + dy / 2) else yy
  if grid then
    let (X, Y) := npMeshgrid xx.dropLast yy.dropLast
    pure (CoordsOut.grid X Y)
  else
    pure (CoordsOut.axes xx.dropLast yy.dropLast)

/-! ### `save` (georaster.py lines 684-761), the data-selection prefix -/

/-- How a `save` call terminates.  `returnedError` is the Python statement
`return AttributeError(...)` (line 719): the exception **object** becomes the
function's return value — it is not raised. -/
inductive SaveOutcome
  | raised (e : PyErr)
  | returnedError (e : PyErr)
  | written (img : Img)
deriving DecidableEq, Repr

/-- `true` iff data was written to the destination. -/
def SaveOutcome.isWritten : SaveOutcome → Bool
  | SaveOutcome.written _ => true
  | _ => false

/-- `Raster.save(filename, dtype=..., blank_value=...)`.  The defaulting line
`dtype = self.data.dtype if dtype is None else dtype` (line 716) raises
`AttributeError` when no data is loaded and no dtype argument is given; with
an explicit dtype, the no-data/no-blank check at line 718 executes
`return AttributeError(...)`, returning the error object; a numeric
`blank_value` writes a constant `np.zeros`-based float64 array; otherwise the
loaded data is written. -/
def save (st : RState) (dtypeArg : Option String) (blank_value : Option ℚ) :
    SaveOutcome :=
  match dtypeArg, st.data, blank_value with
  | none, none, _ => SaveOutcome.raised PyErr.attributeError
  | _, none, none => SaveOutcome.returnedError PyErr.attributeError
  | _, _, some bv => SaveOutcome.written
      { dtype := "float64",
        bands := List.replicate st.meta.count
          (List.replicate st.meta.height (List.replicate st.meta.width bv)),
        mask := none }
  | _, some d, none => SaveOutcome.written d

/-! ### Constructor dispatch (georaster.py lines 67-91) -/

/-- The kinds of `filename` argument reaching `Raster.__init__`: a path
string, a `rio.io.MemoryFile`, a numpy array, or any other object. -/
inductive FilenameArg
  | str (s : String)
  | memfile
  | ndarray
  | otherObj
deriving DecidableEq, Repr

/-- How a successfully dispatched constructor opens its dataset. -/
inductive InitSource
  | disk (s : String)
  | memory
deriving DecidableEq, Repr

/-- Python `isinstance(x, np.array)`: `np.array` is a builtin *function*, not
a type, so `isinstance` raises
`TypeError: isinstance() arg 2 must be a type ...` for every argument. -/
def isinstance_np_array (_f : FilenameArg) : Except PyErr Bool :=
  Except.error PyErr.typeError

/-- The dispatch chain of `Raster.__init__`: `str` opens from disk,
`MemoryFile` opens from memory; for anything else the guard
`isinstance(filename, np.array)` is evaluated — raising `TypeError` — before
either `raise ValueError(...)` branch (the np.array catch at line 86 and the
unrecognised-input catch at line 91) can run. -/
def init_dispatch (f : FilenameArg) : Except PyErr InitSource :=
  match f with
  | FilenameArg.str s => Except.ok (InitSource.disk s)
  | FilenameArg.memfile => Except.ok InitSource.memory
  | f => do
      let isArr ← isinstance_np_array f
      if isArr then throw PyErr.valueError
      else throw PyErr.valueError

/-- `true` iff the result is a raised `ValueError`. -/
def isValueErrorResult : Except PyErr InitSource → Bool
  | Except.error PyErr.valueError => true
  | _ => false

end Raster

/-! ### `value_at_coords` (georaster.py lines 895-1030)

For the windowed point read we model the loaded single-band dataset as a
function grid: pixel value and mask at each integer `(row, col)`, plus the
north-up georeferencing the dataset handle uses for `ds.index`. -/

/-- A loaded single-band dataset: `val`/`msk` give the stored value and mask
at `(row, col)`; the affine transform is `(xres, 0, left, 0, -yres, top)`
with `xres, yres > 0` understood. -/
structure RasterGrid where
  width : ℕ
  height : ℕ
  left : ℚ
  top : ℚ
  xres : ℚ
  yres : ℚ
  nodata : ℚ
  val : ℤ → ℤ → ℚ
  msk : ℤ → ℤ → Bool

namespace RasterGrid

/-- `self.ds.index(x, y)`: rasterio `rowcol` with its default `math.floor`
op — `row = ⌊(y - top)/e⌋` with `e = -yres`, `col = ⌊(x - left)/xres⌋`
(external rasterio, documented formula). -/
def ds_index (r : RasterGrid) (x y : ℚ) : ℤ × ℤ :=
  (⌊(y - r.top) / (-r.yres)⌋, ⌊(x - r.left) / r.xres⌋)

/-- One cell of a boundless `ds.read` with `fill_value = nodata`: inside the
dataset the stored value (masked iff this is a masked read and the stored
mask is set), outside the nodata fill (masked under a masked read). -/
def read (r : RasterGrid) (masked : Bool) (i j : ℤ) : ℚ × Bool :=
  if 0 ≤ i ∧ i < (r.height : ℤ) ∧ 0 ≤ j ∧ j < (r.width : ℤ) then
    (r.val i j, masked && r.msk i j)
  else
    (r.nodata, masked)

/-- `np.ma.mean` of a flattened window: the mean of the unmasked entries, or
`none` (numpy's masked constant) when every entry is masked.  On a plain
(unmasked) read no entry is masked, so this is the plain mean. -/
def ma_mean (cells : List (ℚ × Bool)) : Option ℚ :=
  let vals := (cells.filter (fun c => !c.2)).map Prod.fst
  if vals.length = 0 then none else some (vals.sum / vals.length)

/-- `Raster.value_at_coords(x, y, window, masked)`, single-band branch, with
the defaults `boundless=True` and `reducer_function=np.ma.mean`: a non-odd
window raises `ValueError`; with a window `w` the read window starts
`(w-1)/2` above/left of the pixel containing `(x, y)` and spans `w × w`
cells, and the flattened window is reduced by `ma_mean`; with no window the
single pixel `[0, 0]` is returned (the masked constant if masked). -/
def value_at_coords (r : RasterGrid) (x y : ℚ) (window : Option ℕ)
    (masked : Bool) : Except PyErr (Option ℚ) :=
  match window with
  | some w =>
      if w % 2 ≠ 1 then Except.error PyErr.valueError
      else
        let rc := r.ds_index x y
        let half : ℤ := ((w : ℤ) - 1) / 2
        let row := rc.1 - half
        let col := rc.2 - half
        let cells := (List.range w).flatMap
          (fun a : ℕ => (List.range w).map
            (fun b : ℕ => r.read masked (row + (a : ℤ)) (col + (b : ℤ))))
        Except.ok (ma_mean cells)
  | none =>
      let rc := r.ds_index x y
      let cell := r.read masked rc.1 rc.2
      Except.ok (if cell.2 then none else some cell.1)

end RasterGrid

/-! ### Concrete instances used by the closed theorems -/

/-- A concrete 4×4 single-band grid: value `10*i + j` at `(row i, col j)`,
nothing masked, unit resolution, top-left `(0, 4)`. -/
def G0 : RasterGrid :=
  { width := 4, height := 4, left := 0, top := 4, xres := 1, yres := 1,
    nodata := -1,
    val := fun i j => 10 * (i : ℚ) + (j : ℚ),
    msk := fun _ _ => false }

/-- The example raster of the `coords` scenario: single band, 100×100 pixels,
30 m resolution, top-left corner (478000, 3108140). -/
def r100 : RState :=
  { meta := { driver := "GTiff", dtype := "uint8", nodata := none,
              width := 100, height := 100, count := 1, crs := 32645,
              transform := ⟨30, 0, 478000, 0, -30, 3108140⟩ }
    data := none
    isLoaded := false
    matchesDisk := some true
    filename := some "example.tif" }

/-- A loaded 2×2 single-band image. -/
def imgc : Img :=
  { dtype := "uint8", bands := [[[1, 2], [3, 255]]], mask := none }

/-- A loaded single-band raster read from disk. -/
def stc : RState :=
  { meta := { driver := "GTiff", dtype := "uint8", nodata := some (NdvVal.scalar 255),
              width := 2, height := 2, count := 1, crs := 32645,
              transform := ⟨1, 0, 0, 0, -1, 2⟩ }
    data := some imgc
    isLoaded := true
    matchesDisk := some true
    filename := some "c.tif" }

/-- A loaded 2-band image. -/
def img2b : Img :=
  { dtype := "uint8", bands := [[[1, 2], [3, 255]], [[255, 5], [6, 7]]], mask := none }

/-- A loaded two-band raster. -/
def st2b : RState :=
  { meta := { driver := "GTiff", dtype := "uint8", nodata := some (NdvVal.scalar 255),
              width := 2, height := 2, count := 2, crs := 32645,
              transform := ⟨1, 0, 0, 0, -1, 2⟩ }
    data := some img2b
    isLoaded := true
    matchesDisk := some true
    filename := some "b.tif" }

/-- A raster whose data was never loaded (`load_data=False`). -/
def stND : RState :=
  { meta := { driver := "GTiff", dtype := "uint8", nodata := none,
              width := 2, height := 2, count := 1, crs := 32645,
              transform := ⟨1, 0, 0, 0, -1, 2⟩ }
    data := none
    isLoaded := false
    matchesDisk := some true
    filename := some "nd.tif" }

/-- The state produced by `stc.set_ndv(5, update_array=False)`. -/
def stA : RState :=
  Raster.update stc none (some { stc.meta with nodata := some (NdvVal.scalar 5) })

/-- The state produced by `stc.set_dtypes('int8', update_array=False)`. -/
def stB : RState :=
  Raster.update stc none (some { stc.meta with dtype := "int8" })

/-! ## Theorems -/

/-- **C1 (corrected)** — `outside_image` with `index=True` is `true` exactly
when an index is negative or *strictly* exceeds the raster's width/height; in
particular it is `false` at `(width, height)` (the strict `>` checks do not
flag the one-past-the-end pair) and `false` at `(0, 0)`. -/
theorem outside_image_strict (w h : ℕ) (xi yj : ℤ) :
    Raster.outside_image w h xi yj
        = (decide (xi < 0) || decide (yj < 0) ||
           decide ((w : ℤ) < xi) || decide ((h : ℤ) < yj))
    ∧ Raster.outside_image w h w h = false
    ∧ Raster.outside_image w h 0 0 = false := by
  refine ⟨?_, ?_, ?_⟩
  · simp only [Raster.outside_image]
    split_ifs with h1 h2
    · rcases h1 with hc | hc <;> simp [hc]
    · rcases h2 with hc | hc <;> simp [hc]
    · push_neg at h1 h2
      simp [not_lt.mpr h1.1, not_lt.mpr h1.2, not_lt.mpr h2.1, not_lt.mpr h2.2]
  · simp only [Raster.outside_image]
    rw [if_neg (by omega), if_neg (by omega)]
  · simp only [Raster.outside_image]
    rw [if_neg (by omega), if_neg (by omega)]

/-- **C1 counterexample** — on a 100×100 raster, `outside_image(100, 100)`
returns `false`, whereas the claim states it returns `true` for the pixel
index pair `(width, height)`. -/
theorem outside_image_at_width_height_cex :
    Raster.outside_image 100 100 100 100 = false := by
  decide

/-- **C4 (corrected)** — `reproject` raises `ValueError` when both
`dst_ref` and `dst_crs` are given, when neither is given, and when both
`dst_size` and `dst_res` are given with `dst_ref` absent; it proceeds past
argument validation exactly when exactly one of `dst_ref`/`dst_crs` is given
and, in case `dst_ref` is absent, at most one of `dst_size`/`dst_res` is
given (a provided `dst_ref` overwrites `dst_size` and clears `dst_res`, so
no mutual-exclusion error can then occur). -/
theorem reproject_check_characterization (size res : Bool) :
    Raster.reproject_check true true size res = Except.error PyErr.valueError
    ∧ Raster.reproject_check false false size res = Except.error PyErr.valueError
    ∧ Raster.reproject_check false true true true = Except.error PyErr.valueError
    ∧ ∀ ref crs : Bool,
        Raster.checkOk (Raster.reproject_check ref crs size res)
          = ((ref != crs) && (ref || !(size && res))) := by
  refine ⟨?_, ?_, ?_, ?_⟩
  · rfl
  · rfl
  · rfl
  · intro ref crs
    cases ref <;> cases crs <;> cases size <;> cases res <;> rfl

/-- **C4 counterexample** — with `dst_ref` given and both `dst_size` and
`dst_res` given, validation proceeds (`dst_res` is overwritten from the
reference before the mutual-exclusion check), whereas the claim's
"proceeds ... exactly when ... at most one of dst_size/dst_res" requires a
`ValueError` here. -/
theorem reproject_check_ref_size_res_cex :
    Raster.reproject_check true false true true = Except.ok () := by
  rfl

/-- **C5 (confirmed)** — when `dst_res` is given together with explicit
`dst_bounds`, the output width is `⌈(right - left)/xres⌉` and the output
height is `⌈|bottom - top|/yres⌉`, and the bounds are adjusted outward
(`right` becomes `left + xres*width ≥ right`, `bottom` becomes
`top - yres*height ≤ bottom`) so that each output pixel has exactly the
requested resolution: `right' - left = xres * width` and
`top - bottom' = yres * height` with positive width and height. -/
theorem reproject_res_bounds_spec (left bottom right top xres yres : ℚ)
    (hx : 0 < xres) (hy : 0 < yres) (hlr : left < right) (hbt : bottom < top) :
    (Raster.reproject_res_bounds left bottom right top xres yres).1.1
        = ⌈(right - left) / xres⌉
    ∧ (Raster.reproject_res_bounds left bottom right top xres yres).1.2
        = ⌈(top - bottom) / yres⌉
    ∧ (Raster.reproject_res_bounds left bottom right top xres yres).2.1 = left
    ∧ (Raster.reproject_res_bounds left bottom right top xres yres).2.2.2.2 = top
    ∧ right ≤ (Raster.reproject_res_bounds left bottom right top xres yres).2.2.2.1
    ∧ (Raster.reproject_res_bounds left bottom right top xres yres).2.2.1 ≤ bottom
    ∧ ((Raster.reproject_res_bounds left bottom right top xres yres).2.2.2.1 - left)
        / (((Raster.reproject_res_bounds left bottom right top xres yres).1.1 : ℤ) : ℚ)
        = xres
    ∧ (top - (Raster.reproject_res_bounds left bottom right top xres yres).2.2.1)
        / (((Raster.reproject_res_bounds left bottom right top xres yres).1.2 : ℤ) : ℚ)
        = yres
    ∧ 0 < (Raster.reproject_res_bounds left bottom right top xres yres).1.1
    ∧ 0 < (Raster.reproject_res_bounds left bottom right top xres yres).1.2 := by
  have habs : |bottom - top| = top - bottom := by
    rw [abs_sub_comm]
    exact abs_of_pos (by linarith)
  have hxne : xres ≠ 0 := ne_of_gt hx
  have hyne : yres ≠ 0 := ne_of_gt hy
  have hwle : (right - left) / xres ≤ (⌈(right - left) / xres⌉ : ℚ) :=
    Int.le_ceil _
  have hhle : (top - bottom) / yres ≤ (⌈(top - bottom) / yres⌉ : ℚ) :=
    Int.le_ceil _
  have hw' : right - left ≤ xres * (⌈(right - left) / xres⌉ : ℚ) := by
    have := mul_le_mul_of_nonneg_left hwle (le_of_lt hx)
    rwa [mul_div_cancel₀ _ hxne] at this
  have hh' : top - bottom ≤ yres * (⌈(top - bottom) / yres⌉ : ℚ) := by
    have := mul_le_mul_of_nonneg_left hhle (le_of_lt hy)
    rwa [mul_div_cancel₀ _ hyne] at this
  have hwpos : 0 < ⌈(right - left) / xres⌉ := by
    rw [Int.ceil_pos]
    exact div_pos (by linarith) hx
  have hhpos : 0 < ⌈(top - bottom) / yres⌉ := by
    rw [Int.ceil_pos]
    exact div_pos (by linarith) hy
  have hwne : ((⌈(right - left) / xres⌉ : ℤ) : ℚ) ≠ 0 :=
    Int.cast_ne_zero.mpr (ne_of_gt hwpos)
  have hhne : ((⌈(top - bottom) / yres⌉ : ℤ) : ℚ) ≠ 0 :=
    Int.cast_ne_zero.mpr (ne_of_gt hhpos)
  simp only [Raster.reproject_res_bounds, habs]
  refine ⟨trivial, trivial, trivial, trivial, by linarith, by linarith, ?_, ?_,
    hwpos, hhpos⟩
  · rw [show left + xres * (⌈(right - left) / xres⌉ : ℚ) - left
        = xres * (⌈(right - left) / xres⌉ : ℚ) from by ring]
    rw [mul_div_assoc, div_self hwne, mul_one]
  · rw [show top - (top - yres * (⌈(top - bottom) / yres⌉ : ℚ))
        = yres * (⌈(top - bottom) / yres⌉ : ℚ) from by ring]
    rw [mul_div_assoc, div_self hhne, mul_one]

/-- **C5 witness** — concrete instance: bounds `(0, 0, 10, 10)` at requested
resolution `3`: width = height = `⌈10/3⌉ = 4`, adjusted right = `12 ≥ 10`,
adjusted bottom = `-2 ≤ 0`, and the pixel size is exactly `3`. -/
theorem reproject_res_bounds_witness :
    (0 : ℚ) < 3 ∧ (0 : ℚ) < 10 ∧
    ((Raster.reproject_res_bounds 0 0 10 10 3 3).1.1 = ⌈((10 : ℚ) - 0) / 3⌉
     ∧ (Raster.reproject_res_bounds 0 0 10 10 3 3).1.2 = ⌈((10 : ℚ) - 0) / 3⌉
     ∧ (Raster.reproject_res_bounds 0 0 10 10 3 3).2.1 = 0
     ∧ (Raster.reproject_res_bounds 0 0 10 10 3 3).2.2.2.2 = 10
     ∧ (10 : ℚ) ≤ (Raster.reproject_res_bounds 0 0 10 10 3 3).2.2.2.1
     ∧ (Raster.reproject_res_bounds 0 0 10 10 3 3).2.2.1 ≤ 0
     ∧ ((Raster.reproject_res_bounds 0 0 10 10 3 3).2.2.2.1 - 0)
         / (((Raster.reproject_res_bounds 0 0 10 10 3 3).1.1 : ℤ) : ℚ) = 3
     ∧ ((10 : ℚ) - (Raster.reproject_res_bounds 0 0 10 10 3 3).2.2.1)
         / (((Raster.reproject_res_bounds 0 0 10 10 3 3).1.2 : ℤ) : ℚ) = 3
     ∧ 0 < (Raster.reproject_res_bounds 0 0 10 10 3 3).1.1
     ∧ 0 < (Raster.reproject_res_bounds 0 0 10 10 3 3).1.2) :=
  ⟨by norm_num, by norm_num,
   reproject_res_bounds_spec 0 0 10 10 3 3 (by norm_num) (by norm_num)
     (by norm_num) (by norm_num)⟩

/-- Closed form of the meshgrid entries produced by `coords(offset='corner')`
for a raster with `dx > 0` and `dy < 0`: both the x and the y entry are drawn
from the linspace over `xmin..xmax` (the y axis reversed), as the source
computes them. -/
theorem coords_corner_grid_entry (st : RState) (i j : ℕ)
    (hdx : 0 < st.meta.transform.a) (hdy : st.meta.transform.e < 0)
    (hi : i < st.meta.height) (hj : j < st.meta.width) :
    (Raster.coords st Raster.Offset.corner true).toOption.map
        (fun o => (o.xval i j, o.yval i j))
      = some
          (some ((Raster.bounds st).1
              + ((Raster.bounds st).2.2.1 - (Raster.bounds st).1) * j / st.meta.width),
           some ((Raster.bounds st).1
              + ((Raster.bounds st).2.2.1 - (Raster.bounds st).1)
                  * ((st.meta.height : ℚ) - i) / st.meta.height)) := by
  have hsa : Raster.npSign st.meta.transform.a = 1 := by
    rw [Raster.npSign, if_pos hdx]
  have hse : Raster.npSign st.meta.transform.e = -1 := by
    rw [Raster.npSign, if_neg (by linarith), if_pos hdy]
  set l1 := Raster.npLinspace (Raster.bounds st).1 (Raster.bounds st).2.2.1
    (st.meta.width + 1) with hl1
  set l2 := Raster.npLinspace (Raster.bounds st).1 (Raster.bounds st).2.2.1
    (st.meta.height + 1) with hl2
  have hll1 : l1.length = st.meta.width + 1 := by
    rw [hl1, Raster.npLinspace, List.length_map, List.length_range]
  have hll2 : l2.length = st.meta.height + 1 := by
    rw [hl2, Raster.npLinspace, List.length_map, List.length_range]
  have hci : ((st.meta.height - i : ℕ) : ℚ) = (st.meta.height : ℚ) - i :=
    Nat.cast_sub hi.le
  have hgx : l1.dropLast[j]? = some ((Raster.bounds st).1
      + ((Raster.bounds st).2.2.1 - (Raster.bounds st).1) * (j : ℚ)
        / (((st.meta.width + 1 : ℕ) : ℚ) - 1)) := by
    rw [List.getElem?_dropLast, if_pos (by rw [hll1]; omega)]
    rw [hl1, Raster.npLinspace, List.getElem?_map, List.getElem?_range (by omega)]
    simp only [Option.map_some']
  have hgy : l2.reverse.dropLast[i]? = some ((Raster.bounds st).1
      + ((Raster.bounds st).2.2.1 - (Raster.bounds st).1)
          * ((st.meta.height : ℚ) - i) / (((st.meta.height + 1 : ℕ) : ℚ) - 1)) := by
    rw [List.getElem?_dropLast, if_pos (by rw [List.length_reverse, hll2]; omega)]
    rw [List.getElem?_reverse (by rw [hll2]; omega)]
    rw [show l2.length - 1 - i = st.meta.height - i by rw [hll2]; omega]
    rw [hl2, Raster.npLinspace, List.getElem?_map, List.getElem?_range (by omega)]
    simp only [Option.map_some', hci]
  have hoc : (Raster.Offset.corner = Raster.Offset.center) = False :=
    eq_false (by decide)
  unfold Raster.coords
  rw [show Raster.bounds st
      = ((Raster.bounds st).1, (Raster.bounds st).2.1, (Raster.bounds st).2.2.1,
         (Raster.bounds st).2.2.2) from rfl]
  dsimp only
  rw [hsa, hse]
  rw [Raster.sliceStep, if_pos rfl]
  rw [Raster.sliceStep, if_neg (by decide), if_pos rfl]
  simp only [bind, Except.bind, pure, Except.pure, hoc, if_false, eq_self_iff_true,
    if_true, Raster.npMeshgrid, Except.toOption, Raster.CoordsOut.xval,
    Raster.CoordsOut.yval]
  simp only [Option.map_some', List.get?_eq_getElem?, List.getElem?_map, hgx, hgy,
    Option.map_some', Option.some_bind]
  have hw : (((st.meta.width + 1 : ℕ) : ℚ) - 1) = (st.meta.width : ℚ) := by
    push_cast
    ring
  have hh : (((st.meta.height + 1 : ℕ) : ℚ) - 1) = (st.meta.height : ℚ) := by
    push_cast
    ring
  rw [hw, hh]

/-- **C2 (code_bug)** — on the single-band 100×100 raster at 30 m resolution
with transform `(30, 0, 478000, 0, -30, 3108140)`, `coords(offset='corner')`
returns x-values starting at 478000 and increasing by 30 per column, but the
y-values start at **481000** (the raster's x upper bound) and decrease by 30
per row — not at 3108140 — because line 1050 computes the y axis with
`np.linspace(xmin, xmax, height+1)`. -/
theorem coords_corner_y_from_x_bounds :
    (Raster.coords r100 Raster.Offset.corner true).toOption.map
        (fun o => (o.xval 0 0, o.xval 0 1, o.yval 0 0, o.yval 1 0))
      = some (some 478000, some 478030, some 481000, some 480970) := by
  have hdx : 0 < r100.meta.transform.a := by
    show (0 : ℚ) < 30
    norm_num
  have hdy : r100.meta.transform.e < 0 := by
    show (-30 : ℚ) < 0
    norm_num
  have h00 := coords_corner_grid_entry r100 0 0 hdx hdy (by decide) (by decide)
  have h01 := coords_corner_grid_entry r100 0 1 hdx hdy (by decide) (by decide)
  have h10 := coords_corner_grid_entry r100 1 0 hdx hdy (by decide) (by decide)
  cases hx : (Raster.coords r100 Raster.Offset.corner true).toOption with
  | none =>
      rw [hx] at h00
      simp at h00
  | some o =>
      rw [hx] at h00 h01 h10
      simp only [Option.map_some', Option.some.injEq, Prod.mk.injEq] at h00 h01 h10
      simp only [Option.map_some']
      rw [h00.1, h00.2, h01.1, h10.2]
      norm_num [Raster.bounds, r100]

/-- **C3 (corrected)** — `crop` (both modes), `shift`, and every successful
`set_ndv`/`set_dtypes` call funnel through `_update` and leave
`matches_disk = False` (`reproject` does not: see the counterexample). -/
theorem mutations_set_matches_disk_false (st : RState) (bds : ℚ × ℚ × ℚ × ℚ)
    (mode : Raster.CropMode) (eImg : Img) (eTfm : Affine6) (xoff yoff : ℚ)
    (na : Raster.NdvArg) (da : Raster.DtypeArg) (u v : Bool) (st1 st2 : RState)
    (h1 : Raster.set_ndv st na u = Except.ok st1)
    (h2 : Raster.set_dtypes st da v = Except.ok st2) :
    (Raster.crop st bds mode eImg eTfm).matchesDisk = some false
    ∧ (Raster.shift st xoff yoff).matchesDisk = some false
    ∧ st1.matchesDisk = some false
    ∧ st2.matchesDisk = some false := by
  obtain ⟨b1, b2, b3, b4⟩ := bds
  refine ⟨?_, rfl, ?_, ?_⟩
  · cases mode <;> rfl
  · rw [Raster.set_ndv] at h1
    cases hargs : Raster.set_ndv_args st na u with
    | error e => rw [hargs] at h1; exact absurd h1 (by simp [Except.map])
    | ok p =>
        rw [hargs] at h1
        simp only [Except.map] at h1
        cases h1
        rfl
  · rw [Raster.set_dtypes] at h2
    cases hargs : Raster.set_dtypes_args st da v with
    | error e => rw [hargs] at h2; exact absurd h2 (by simp [Except.map])
    | ok p =>
        rw [hargs] at h2
        simp only [Except.map] at h2
        cases h2
        rfl

/-- **C3 witness** — a concrete loaded single-band raster: crop, shift,
set_ndv and set_dtypes all leave `matches_disk = False`. -/
theorem mutations_matches_disk_witness :
    (Raster.crop stc (0, 0, 2, 2) Raster.CropMode.match_pixel imgc
        ⟨1, 0, 0, 0, -1, 2⟩).matchesDisk = some false
    ∧ (Raster.shift stc 1 2).matchesDisk = some false
    ∧ stA.matchesDisk = some false
    ∧ stB.matchesDisk = some false :=
  mutations_set_matches_disk_false stc (0, 0, 2, 2) Raster.CropMode.match_pixel
    imgc ⟨1, 0, 0, 0, -1, 2⟩ 1 2 (Raster.NdvArg.scalar 5)
    (Raster.DtypeArg.single "int8") false false stA stB rfl rfl

/-- **C3 counterexample** — `reproject` builds its result with `from_array`,
whose `matches_disk` is the class default `None`, not `False`; the claim that
reproject funnels through `_update` and leaves `matches_disk = False` fails. -/
theorem reproject_matches_disk_cex :
    (Raster.reproject_result stc imgc ⟨1, 0, 0, 0, -1, 2⟩ 32645 none).matchesDisk = none
    ∧ decide ((none : Option Bool) = some false) = false :=
  ⟨rfl, rfl⟩

/-- **C7 (confirmed)** — on a multi-band raster, `set_ndv` with a single
scalar produces exactly the same result (same metadata, same array rewrite,
same raised error if any) as `set_ndv` with that scalar repeated once per
band. -/
theorem set_ndv_scalar_broadcast (st : RState) (v : ℚ) (u : Bool)
    (hc : 1 < st.meta.count) :
    Raster.set_ndv st (Raster.NdvArg.scalar v) u
      = Raster.set_ndv st (Raster.NdvArg.seq (List.replicate st.meta.count v)) u := by
  have h1 : ¬ st.meta.count = 1 := by omega
  unfold Raster.set_ndv Raster.set_ndv_args
  simp [hc, h1]

/-- **C7 witness** — concrete two-band raster, scalar 254 versus `[254, 254]`. -/
theorem set_ndv_scalar_broadcast_witness :
    1 < st2b.meta.count
    ∧ Raster.set_ndv st2b (Raster.NdvArg.scalar 254) false
        = Raster.set_ndv st2b (Raster.NdvArg.seq (List.replicate st2b.meta.count 254)) false :=
  ⟨by decide, set_ndv_scalar_broadcast st2b 254 false (by decide)⟩

/-- **C8 (code_bug)** — `set_dtypes` with `update_array=True` commits through
`_update` on a single-band raster, but on a multi-band raster it raises
`TypeError`: line 676 executes `for i in imgdata.shape[0]:`, iterating over a
Python `int`. -/
theorem set_dtypes_multiband_raises :
    Raster.set_dtypes st2b (Raster.DtypeArg.single "int8") true
        = Except.error PyErr.typeError
    ∧ Raster.okState (Raster.set_dtypes stc (Raster.DtypeArg.single "int8") true) = true := by
  exact ⟨rfl, rfl⟩

/-- **C9 (code_bug)** — `save` on a raster with no loaded data and
`blank_value=None`: with the default `dtype` argument an `AttributeError` is
raised (from `self.data.dtype` at line 716); with an explicit dtype the
`return AttributeError(...)` at line 719 hands the error object back as the
return value instead of raising it.  Nothing is written in either case. -/
theorem save_no_data_behaviour :
    Raster.save stND none none = Raster.SaveOutcome.raised PyErr.attributeError
    ∧ Raster.save stND (some "uint8") none
        = Raster.SaveOutcome.returnedError PyErr.attributeError
    ∧ ∀ d : Option String, (Raster.save stND d none).isWritten = false := by
  refine ⟨rfl, rfl, ?_⟩
  intro d
  cases d <;> rfl

/-- **C6 (confirmed)** — for a loaded single-band raster and a coordinate
whose containing pixel `(row, col)` (the nearest pixel, as computed by
`ds.index`) is at least one pixel from every edge: `value_at_coords` with
`window=3` and the default reducer returns the mean of the unmasked values of
the 3×3 neighborhood centered on `(row, col)`; with `window=None` it returns
the value of that single nearest pixel; and any even window raises
`ValueError`. -/
theorem value_at_coords_spec (r : RasterGrid) (x y : ℚ) (m : Bool) (row col : ℤ)
    (hidx : r.ds_index x y = (row, col))
    (h1 : 1 ≤ row) (h2 : row + 1 < (r.height : ℤ))
    (h3 : 1 ≤ col) (h4 : col + 1 < (r.width : ℤ)) :
    RasterGrid.value_at_coords r x y (some 3) m
        = Except.ok (RasterGrid.ma_mean
            [(r.val (row - 1) (col - 1), m && r.msk (row - 1) (col - 1)),
             (r.val (row - 1) col, m && r.msk (row - 1) col),
             (r.val (row - 1) (col + 1), m && r.msk (row - 1) (col + 1)),
             (r.val row (col - 1), m && r.msk row (col - 1)),
             (r.val row col, m && r.msk row col),
             (r.val row (col + 1), m && r.msk row (col + 1)),
             (r.val (row + 1) (col - 1), m && r.msk (row + 1) (col - 1)),
             (r.val (row + 1) col, m && r.msk (row + 1) col),
             (r.val (row + 1) (col + 1), m && r.msk (row + 1) (col + 1))])
    ∧ RasterGrid.value_at_coords r x y none false = Except.ok (some (r.val row col))
    ∧ ∀ w : ℕ, w % 2 = 0 →
        RasterGrid.value_at_coords r x y (some w) m = Except.error PyErr.valueError := by
  have hread : ∀ (mm : Bool) (a b : ℤ), 0 ≤ a → a < (r.height : ℤ) →
      0 ≤ b → b < (r.width : ℤ) →
      r.read mm a b = (r.val a b, mm && r.msk a b) := by
    intro mm a b ha1 ha2 hb1 hb2
    rw [RasterGrid.read, if_pos ⟨ha1, ha2, hb1, hb2⟩]
  refine ⟨?_, ?_, ?_⟩
  · unfold RasterGrid.value_at_coords
    dsimp only
    rw [if_neg (by decide)]
    rw [hidx]
    dsimp only
    rw [show (((3 : ℕ) : ℤ) - 1) / 2 = 1 from by decide]
    rw [show List.range 3 = [0, 1, 2] from rfl]
    simp only [List.flatMap_cons, List.flatMap_nil, List.map_cons, List.map_nil,
      List.cons_append, List.nil_append, List.append_nil]
    have er0 : row - 1 + ((0 : ℕ) : ℤ) = row - 1 := by push_cast; ring
    have er1 : row - 1 + ((1 : ℕ) : ℤ) = row := by push_cast; ring
    have er2 : row - 1 + ((2 : ℕ) : ℤ) = row + 1 := by push_cast; ring
    have ec0 : col - 1 + ((0 : ℕ) : ℤ) = col - 1 := by push_cast; ring
    have ec1 : col - 1 + ((1 : ℕ) : ℤ) = col := by push_cast; ring
    have ec2 : col - 1 + ((2 : ℕ) : ℤ) = col + 1 := by push_cast; ring
    simp only [er0, er1, er2, ec0, ec1, ec2]
    rw [hread m (row - 1) (col - 1) (by omega) (by omega) (by omega) (by omega),
      hread m (row - 1) col (by omega) (by omega) (by omega) (by omega),
      hread m (row - 1) (col + 1) (by omega) (by omega) (by omega) (by omega),
      hread m row (col - 1) (by omega) (by omega) (by omega) (by omega),
      hread m row col (by omega) (by omega) (by omega) (by omega),
      hread m row (col + 1) (by omega) (by omega) (by omega) (by omega),
      hread m (row + 1) (col - 1) (by omega) (by omega) (by omega) (by omega),
      hread m (row + 1) col (by omega) (by omega) (by omega) (by omega),
      hread m (row + 1) (col + 1) (by omega) (by omega) (by omega) (by omega)]
  · unfold RasterGrid.value_at_coords
    dsimp only
    rw [hidx]
    dsimp only
    rw [hread false row col (by omega) (by omega) (by omega) (by omega)]
    simp
  · intro w hw
    unfold RasterGrid.value_at_coords
    dsimp only
    rw [if_pos (by omega)]

/-- **C6 witness** — the concrete 4×4 grid `G0` at coordinate `(1.5, 1.5)`
(pixel `(2, 1)`): window 3 gives the mean of the centered 3×3 neighborhood,
no window gives the pixel's own value, window 4 raises `ValueError`. -/
theorem value_at_coords_witness :
    RasterGrid.value_at_coords G0 1.5 1.5 (some 3) false
        = Except.ok (RasterGrid.ma_mean
            [(G0.val 1 0, false && G0.msk 1 0),
             (G0.val 1 1, false && G0.msk 1 1),
             (G0.val 1 2, false && G0.msk 1 2),
             (G0.val 2 0, false && G0.msk 2 0),
             (G0.val 2 1, false && G0.msk 2 1),
             (G0.val 2 2, false && G0.msk 2 2),
             (G0.val 3 0, false && G0.msk 3 0),
             (G0.val 3 1, false && G0.msk 3 1),
             (G0.val 3 2, false && G0.msk 3 2)])
    ∧ RasterGrid.value_at_coords G0 1.5 1.5 none false = Except.ok (some (G0.val 2 1))
    ∧ RasterGrid.value_at_coords G0 1.5 1.5 (some 4) false
        = Except.error PyErr.valueError := by
  have hidx : G0.ds_index 1.5 1.5 = (2, 1) := by
    rw [RasterGrid.ds_index]
    rw [show G0.top = 4 from rfl, show G0.yres = 1 from rfl,
        show G0.left = 0 from rfl, show G0.xres = 1 from rfl]
    rw [Prod.mk.injEq]
    constructor
    · rw [Int.floor_eq_iff]
      norm_num
    · rw [Int.floor_eq_iff]
      norm_num
  have h := value_at_coords_spec G0 1.5 1.5 false 2 1 hidx (by decide) (by decide)
    (by decide) (by decide)
  exact ⟨h.1, h.2.1, h.2.2 4 rfl⟩

/-- **C10 (confirmed)** — any `filename` argument that is neither a `str` nor
a `MemoryFile` makes `Raster.__init__` raise `TypeError` from the
`isinstance(filename, np.array)` check (`np.array` is a function, not a
type), and no input can reach either `ValueError` branch. -/
theorem init_dispatch_typeerror :
    Raster.init_dispatch Raster.FilenameArg.ndarray = Except.error PyErr.typeError
    ∧ Raster.init_dispatch Raster.FilenameArg.otherObj = Except.error PyErr.typeError
    ∧ ∀ f : Raster.FilenameArg,
        Raster.isValueErrorResult (Raster.init_dispatch f) = false := by
  refine ⟨rfl, rfl, ?_⟩
  intro f
  cases f <;> rfl

end GeoUtils
